import Mathlib

/-!
Shallow embedding of the rogue-access-point scanner (`scan.py`): the RSN
information-element decoder (`parse_rsn`) and the beacon/data-frame handler
(`packet_handler`) together with the AP registry (`ap_data`) and the alert
ledger (`alerts`).

Modelling conventions:
* Python `bytes` are `List Nat`; `b[a:c]` is `pySlice`, `struct.unpack("<H", s)`
  is `unpackLEH` (it fails unless the slice has exactly two bytes, exactly as
  `struct.unpack` raises `struct.error`); Python indexing `b[i]` is `b[i]?`
  (an out-of-range index raises `IndexError`, modelled by `none`).
* The `try ... except: return {}` body of `parse_rsn` is modelled by an
  `Option` result: any failing step collapses the whole decode to `none`.
* The insertion-ordered Python dict `ap_data` is an association list
  `List (String × APRecord)`; a new key is appended at the end, an existing
  key is updated in place, matching CPython dict semantics.
* CPython reference semantics for `alerts.append(ap_data[bssid].copy())`:
  `dict.copy` is shallow, so the alert's `pwr` and `channel` entries are the
  very list objects stored in the record.  A later in-place
  `ap_data[bssid]["pwr"].append(...)` therefore also changes the ledger entry.
  `touchAlerts` reproduces this aliasing; integer/string fields are rebound,
  never mutated, so they stay frozen in the ledger.
* Maximum bit rate: the code stores `max(rate * 0.5 for rate in rates)`.
  Scaling by the constant 0.5 (exact in floating point) is monotone, so we
  store the raw maximum rate unit (`maxRate`); `none` models the `"N/A"` case.
-/

namespace RogueScan

/-- Python slice `l[a:b]` for `0 ≤ a ≤ b` (never raises, may be short). -/
def pySlice (l : List Nat) (a b : Nat) : List Nat :=
  (l.drop a).take (b - a)

/-- `struct.unpack("<H", s)[0]`: little-endian 16-bit read; `struct.error`
(modelled as `none`) unless the argument has exactly two bytes. -/
def unpackLEH (s : List Nat) : Option Nat :=
  match s with
  | [b0, b1] => some (b0 + 256 * b1)
  | _ => none

/-- The dictionary returned by a successful `parse_rsn`. -/
structure RsnInfo where
  enc : String
  cipher : String
  auth : String
  pmf_capable : Bool
  pmf_required : Bool
deriving DecidableEq

/-- `cipher_map = {1:"WEP-40", 2:"TKIP", 4:"CCMP", 5:"WEP-104"}` with
`dict.get` default `"Unknown"`. -/
def cipher_map (n : Nat) : String :=
  if n = 1 then "WEP-40"
  else if n = 2 then "TKIP"
  else if n = 4 then "CCMP"
  else if n = 5 then "WEP-104"
  else "Unknown"

/-- `akm_map = {1:"802.1X", 2:"PSK"}` with `dict.get` default `"Unknown"`. -/
def akm_map (n : Nat) : String :=
  if n = 1 then "802.1X"
  else if n = 2 then "PSK"
  else "Unknown"

/-- `parse_rsn` from `scan.py`: decodes an RSN information element.  The
Python body is wrapped in `try ... except Exception: return {}`; every step
that can raise (`struct.unpack` on a short slice, indexing `[3]` into a short
suite) is therefore `Option`-valued, and any failure yields `none` (the empty
dict).  A version other than 1 also yields the empty dict. -/
def parse_rsn (rsn_ie : List Nat) : Option RsnInfo :=
  match unpackLEH (pySlice rsn_ie 0 2) with
  | none => none
  | some version =>
    if version ≠ 1 then none
    else
      match unpackLEH (pySlice rsn_ie 6 8) with
      | none => none
      | some pairwise_count =>
        let pairwise_list_length := pairwise_count * 4
        let pairwise_cipher := pySlice rsn_ie 8 12
        let akm_count_offset := 8 + pairwise_list_length
        match unpackLEH (pySlice rsn_ie akm_count_offset (akm_count_offset + 2)) with
        | none => none
        | some akm_count =>
          let akm_list_length := akm_count * 4
          let akm_suite := pySlice rsn_ie (akm_count_offset + 2) (akm_count_offset + 6)
          let expected_length_without_cap := akm_count_offset + 2 + akm_list_length
          let rsn_capabilities : Option Nat :=
            if expected_length_without_cap + 2 ≤ rsn_ie.length then
              unpackLEH (pySlice rsn_ie expected_length_without_cap
                (expected_length_without_cap + 2))
            else none
          let pmf_capable :=
            match rsn_capabilities with
            | some c => c &&& 0x0040 != 0
            | none => false
          let pmf_required :=
            match rsn_capabilities with
            | some c => c &&& 0x0080 != 0
            | none => false
          match pairwise_cipher[3]? with
          | none => none
          | some pc3 =>
            match akm_suite[3]? with
            | none => none
            | some ak3 =>
              some { enc := "WPA2", cipher := cipher_map pc3, auth := akm_map ak3,
                     pmf_capable := pmf_capable, pmf_required := pmf_required }

/-- A decoded beacon frame as handed to `packet_handler` after the scapy
field/IE extraction: BSSID, stripped SSID string, optional signal reading,
optional channel, concatenated supported/extended rates, optional RSN IE
payload. -/
structure Beacon where
  bssid : String
  raw_ssid : String
  signal : Option Int
  channel : Option Nat
  rates : List Nat
  rsn_ie : Option (List Nat)
deriving DecidableEq

/-- `ssid = raw_ssid if raw_ssid else "<Hidden>"`. -/
def ssidOf (b : Beacon) : String :=
  if b.raw_ssid = "" then "<Hidden>" else b.raw_ssid

/-- The four security fields (`enc`, `cipher`, `auth`, `pmf`) derived in
`packet_handler`. -/
structure Security where
  enc : String
  cipher : String
  auth : String
  pmf : String
deriving DecidableEq

/-- The `pmf_str` mapping in `packet_handler`: `pmf_required` wins over
`pmf_capable`, default `"No"`. -/
def pmfString (info : RsnInfo) : String :=
  if info.pmf_required then "Required"
  else if info.pmf_capable then "Capable"
  else "No"

/-- Security derivation in `packet_handler`: an absent or empty RSN IE (the
Python truthiness test `if rsn_ie:`) gives the OPN defaults; a present IE
whose decode returns the empty dict gives the hard-coded WPA2/CCMP/PSK
fallback; a successful decode is used as is. -/
def securityOf (b : Beacon) : Security :=
  match b.rsn_ie with
  | some ie =>
    if ie.isEmpty then ⟨"OPN", "", "", "No"⟩
    else
      match parse_rsn ie with
      | some info => ⟨info.enc, info.cipher, info.auth, pmfString info⟩
      | none => ⟨"WPA2", "CCMP", "PSK", "No"⟩
  | none => ⟨"OPN", "", "", "No"⟩

/-- `max(all_rates)` in raw half-Mbps units; `none` models the empty-rates
`"N/A"` case (scaling each rate by the exact constant 0.5 is monotone, so
the maximum commutes with it). -/
def maxRate (rs : List Nat) : Option Nat :=
  match rs with
  | [] => none
  | r :: t => some (t.foldl max r)

/-- One entry of `ap_data`: the per-BSSID record built by `packet_handler`. -/
structure APRecord where
  essid : String
  bssid : String
  pwr : List Int
  beacons : Nat
  data : Nat
  channel : List Nat
  mb : Option Nat
  enc : String
  cipher : String
  auth : String
  pmf : String
deriving DecidableEq

/-- One ledger entry: `ap_data[bssid].copy()` plus the `alert_type` key. -/
structure Alert where
  ap : APRecord
  alert_type : String
deriving DecidableEq

/-- The mutable globals of `scan.py`: `ap_data` (insertion-ordered dict) and
`alerts` (append-only list). -/
structure ScanState where
  ap_data : List (String × APRecord)
  alerts : List Alert
deriving DecidableEq

def initState : ScanState := ⟨[], []⟩

/-- The record created on first sight of a BSSID. -/
def freshRecord (b : Beacon) : APRecord :=
  { essid := ssidOf b
    bssid := b.bssid
    pwr := match b.signal with | some s => [s] | none => []
    beacons := 1
    data := 0
    channel := match b.channel with | some c => [c] | none => []
    mb := maxRate b.rates
    enc := (securityOf b).enc
    cipher := (securityOf b).cipher
    auth := (securityOf b).auth
    pmf := (securityOf b).pmf }

/-- `if x is not None and x not in l: l.append(x)`. -/
def dedupAppend {α : Type} [DecidableEq α] (l : List α) (x : Option α) : List α :=
  match x with
  | some v => if v ∈ l then l else l ++ [v]
  | none => l

/-- The repeat-sight update: bump `beacons`, dedup-append signal and channel;
all other fields keep their first-observation values. -/
def bumpRecord (r : APRecord) (b : Beacon) : APRecord :=
  { r with
    beacons := r.beacons + 1
    pwr := dedupAppend r.pwr b.signal
    channel := dedupAppend r.channel b.channel }

/-- Dict lookup `ap_data[k]` / `k in ap_data` on the association list. -/
def lookupAp (m : List (String × APRecord)) (k : String) : Option APRecord :=
  (m.find? (fun p => p.1 == k)).map Prod.snd

/-- The record stored under `b.bssid` after the upsert step of
`packet_handler`. -/
def snapshotOf (m : List (String × APRecord)) (b : Beacon) : APRecord :=
  match lookupAp m b.bssid with
  | none => freshRecord b
  | some r => bumpRecord r b

/-- The upsert step: a fresh key is appended (CPython dict insertion order),
an existing key is updated in place. -/
def upsertAp (m : List (String × APRecord)) (b : Beacon) :
    List (String × APRecord) :=
  match lookupAp m b.bssid with
  | none => m ++ [(b.bssid, freshRecord b)]
  | some r => m.map (fun p => if p.1 == b.bssid then (p.1, bumpRecord r b) else p)

/-- CPython aliasing of the shallow `dict.copy` in the ledger: the `pwr` and
`channel` values of an alert for this BSSID are the same list objects as the
record's, so the in-place appends of the repeat-sight branch are visible
through the ledger.  All other alert fields are rebound, never mutated. -/
def touchAlerts (bssid : String) (pwr : List Int) (channel : List Nat)
    (alerts : List Alert) : List Alert :=
  alerts.map (fun a =>
    if a.ap.bssid == bssid then
      { a with ap := { a.ap with pwr := pwr, channel := channel } }
    else a)

/-- The ledger after the upsert step: on a repeat sight the aliased lists of
an existing alert for this BSSID have been mutated in place. -/
def alertsAfterUpsert (st : ScanState) (b : Beacon) : List Alert :=
  match lookupAp st.ap_data b.bssid with
  | none => st.alerts
  | some _ =>
    touchAlerts b.bssid (snapshotOf st.ap_data b).pwr
      (snapshotOf st.ap_data b).channel st.alerts

/-- `any(alert.get('bssid') == bssid for alert in alerts)`. -/
def hasAlertFor (alerts : List Alert) (bssid : String) : Bool :=
  alerts.any (fun a => a.ap.bssid == bssid)

/-- Python `str.split(',')` on the character list: split at every comma,
keeping empty parts, never dropping anything. -/
def splitCommaChars (l : List Char) : List (List Char) :=
  match l with
  | [] => [[]]
  | x :: xs =>
    match splitCommaChars xs with
    | [] => [[x]]
    | h :: t => if x = ',' then [] :: h :: t else (x :: h) :: t

/-- Python `entry.split(',')`. -/
def pySplitComma (s : String) : List String :=
  (splitCommaChars s.toList).map (fun cs => ⟨cs⟩)

/-- Whitelist membership: each loaded entry is split on `','`; lines that do
not split into exactly two parts raise `ValueError` on unpacking and are
skipped; both the ESSID and the BSSID must match exactly. -/
def whitelistedB (wl : List String) (ssid bssid : String) : Bool :=
  wl.any (fun entry =>
    match pySplitComma entry with
    | [e, bd] => ssid == e && bssid == bd
    | _ => false)

/-- The evil-twin scan: iterate over all registry entries; on each other
entry sharing the advertised ESSID, append an Evil Twin alert unless this
BSSID already has a ledger entry (the membership test is re-run inside the
loop, so at most one entry is ever appended). -/
def etLoop (entries : List (String × APRecord)) (display_essid bssid : String)
    (snapshot : APRecord) (alerts : List Alert) : List Alert :=
  match entries with
  | [] => alerts
  | p :: t =>
    if p.2.essid == display_essid && p.1 != bssid then
      if hasAlertFor alerts bssid then etLoop t display_essid bssid snapshot alerts
      else etLoop t display_essid bssid snapshot
        (alerts ++ [⟨snapshot, "Evil Twin Detected"⟩])
    else etLoop t display_essid bssid snapshot alerts

/-- The alert section of `packet_handler` (lines 171-200): whitelist check,
evil-twin scan for non-hidden networks, then the Not Whitelisted fallback
guarded by a fresh ledger-membership test. -/
def alertPhase (wl : List String) (ssid bssid : String) (snapshot : APRecord)
    (entries : List (String × APRecord)) (alerts : List Alert) : List Alert :=
  if whitelistedB wl ssid bssid then alerts
  else
    let alerts1 :=
      if ssid ≠ "<Hidden>" then etLoop entries ssid bssid snapshot alerts
      else alerts
    if hasAlertFor alerts1 bssid then alerts1
    else alerts1 ++ [⟨snapshot, "Not Whitelisted"⟩]

/-- The beacon branch of `packet_handler`: upsert the record (mutating the
aliased ledger lists on a repeat sight), then run the alert section against
the upserted registry with the freshly looked-up record as the alert
snapshot. -/
def processBeacon (wl : List String) (st : ScanState) (b : Beacon) : ScanState :=
  { ap_data := upsertAp st.ap_data b
    alerts := alertPhase wl (ssidOf b) b.bssid (snapshotOf st.ap_data b)
      (upsertAp st.ap_data b) (alertsAfterUpsert st b) }

/-- The data-frame branch of `packet_handler`: bump `data` if and only if the
BSSID already has a record; otherwise nothing happens. -/
def processData (st : ScanState) (bssid_data : String) : ScanState :=
  match lookupAp st.ap_data bssid_data with
  | some r =>
    { st with
      ap_data := st.ap_data.map (fun p =>
        if p.1 == bssid_data then (p.1, { r with data := r.data + 1 }) else p) }
  | none => st

/-- One frame as classified by `packet_handler`: a beacon or a data frame
(identified by its `addr3` BSS address).  Frames of other kinds are ignored
by the handler and are omitted from the model. -/
inductive Frame where
  | beacon (b : Beacon)
  | dataFrame (bssid : String)
deriving DecidableEq

def step (wl : List String) (st : ScanState) (f : Frame) : ScanState :=
  match f with
  | .beacon b => processBeacon wl st b
  | .dataFrame bd => processData st bd

def runFrom (wl : List String) (st : ScanState) (evs : List Frame) : ScanState :=
  evs.foldl (step wl) st

/-- A whole run of the handler from the initial empty globals. -/
def runScan (wl : List String) (evs : List Frame) : ScanState :=
  runFrom wl initState evs

/-- Average signal as computed by the table printers: arithmetic mean of the
stored samples, absent when there are none. -/
def avgPwr (l : List Int) : Option ℚ :=
  if l = [] then none else some ((l.sum : ℚ) / (l.length : ℚ))

/-- The observable identity of a ledger entry: which BSSID, which alert
type. -/
def alertSig (a : Alert) : String × String := (a.ap.bssid, a.alert_type)

/-- Number of ledger entries for a given BSSID. -/
def countFor (alerts : List Alert) (x : String) : Nat :=
  (alerts.filter (fun a => a.ap.bssid == x)).length

/-- Registry well-formedness: every record is stored under its own BSSID.
This holds in every reachable state. -/
def wfAp (m : List (String × APRecord)) : Prop :=
  ∀ p ∈ m, p.2.bssid = p.1

instance (m : List (String × APRecord)) : Decidable (wfAp m) := by
  unfold wfAp
  infer_instance

/-! ### Concrete scenarios used by witnesses and counterexamples -/

/-- Beacon from BSSID `A` advertising essid `"Net"`. -/
def wbA : Beacon := ⟨"aa:aa:aa:aa:aa:aa", "Net", some (-40), some 6, [2, 4], none⟩

/-- Beacon from BSSID `B` advertising the same essid `"Net"`. -/
def wbB : Beacon := ⟨"bb:bb:bb:bb:bb:bb", "Net", some (-50), some 11, [2], none⟩

/-- Whitelist containing exactly the pair `("Net", A)`. -/
def wl4 : List String := ["Net,aa:aa:aa:aa:aa:aa"]

/-- Beacon carrying an RSN element whose version field is 2, so its decode
fails. -/
def c2beacon : Beacon :=
  ⟨"cc:cc:cc:cc:cc:cc", "CafeWifi", some (-30), some 1, [], some [2, 0]⟩

/-- First beacon of a network that will receive a Not Whitelisted alert. -/
def c7b1 : Beacon := ⟨"ee:ee:ee:ee:ee:ee", "Home", some (-45), some 1, [], none⟩

/-- Repeat beacon of the same BSSID with a new signal reading. -/
def c7b2 : Beacon := ⟨"ee:ee:ee:ee:ee:ee", "Home", some (-46), some 1, [], none⟩

/-- First beacon of the repeat-sight scenario (signal -45). -/
def c8b1 : Beacon := ⟨"dd:dd:dd:dd:dd:dd", "Lab", some (-45), some 6, [4], none⟩

/-- Repeat beacon of the same BSSID with signal -46. -/
def c8b2 : Beacon := ⟨"dd:dd:dd:dd:dd:dd", "Lab", some (-46), some 6, [4], none⟩

/-- A valid synthetic RSN element: version 1, one pairwise suite of type 4
(CCMP), one AKM suite of type 2 (PSK), capabilities `0x00C0`
(PMF capable and required). -/
def rsnSample : List Nat :=
  [1, 0, 0, 0, 0, 0, 1, 0, 0, 15, 172, 4, 1, 0, 0, 15, 172, 2, 192, 0]

/-- First-seen beacon of the essid-change scenario: essid `"Net"`. -/
def c10first : Beacon := ⟨"xx:xx:xx:xx:xx:xx", "Net", some (-33), some 3, [2], none⟩

/-- Another registered network whose stored essid is `"Net2"`. -/
def c10other : Beacon := ⟨"yy:yy:yy:yy:yy:yy", "Net2", some (-60), some 4, [2], none⟩

/-- Registry holding the two records above, empty ledger. -/
def c10st : ScanState :=
  ⟨[("xx:xx:xx:xx:xx:xx", freshRecord c10first),
    ("yy:yy:yy:yy:yy:yy", freshRecord c10other)], []⟩

/-- Repeat beacon of the first BSSID now advertising essid `"Net2"`. -/
def c10b : Beacon := ⟨"xx:xx:xx:xx:xx:xx", "Net2", some (-35), some 3, [2], none⟩

/-! ### Ledger bookkeeping lemmas -/

lemma hasAlertFor_append_singleton (l : List Alert) (a : Alert) (x : String) :
    hasAlertFor (l ++ [a]) x = (hasAlertFor l x || (a.ap.bssid == x)) := by
  simp [hasAlertFor]

lemma countFor_append_singleton (l : List Alert) (a : Alert) (x : String) :
    countFor (l ++ [a]) x = countFor l x + if a.ap.bssid == x then 1 else 0 := by
  simp only [countFor, List.filter_append]
  by_cases h : (a.ap.bssid == x) = true <;> simp [h]

lemma countFor_eq_zero_iff (l : List Alert) (x : String) :
    countFor l x = 0 ↔ hasAlertFor l x = false := by
  induction l with
  | nil => simp [countFor, hasAlertFor]
  | cons a t ih =>
    by_cases h : (a.ap.bssid == x) = true <;>
      simp [countFor, hasAlertFor, h, List.filter_cons] at ih ⊢

lemma hasAlertFor_true_iff_countFor_ne (l : List Alert) (x : String) :
    hasAlertFor l x = true ↔ countFor l x ≠ 0 := by
  rw [ne_eq, countFor_eq_zero_iff]
  cases h : hasAlertFor l x <;> simp

/-! ### Aliasing (`touchAlerts`) preserves everything but `pwr`/`channel` -/

lemma touch_one_bssid (k : String) (pw : List Int) (ch : List Nat) (a : Alert) :
    (if a.ap.bssid == k then
      { a with ap := { a.ap with pwr := pw, channel := ch } } else a).ap.bssid
      = a.ap.bssid := by
  split <;> rfl

lemma touch_one_sig (k : String) (pw : List Int) (ch : List Nat) (a : Alert) :
    alertSig (if a.ap.bssid == k then
      { a with ap := { a.ap with pwr := pw, channel := ch } } else a) = alertSig a := by
  split <;> rfl

lemma touchAlerts_sig (k : String) (pw : List Int) (ch : List Nat) (l : List Alert) :
    (touchAlerts k pw ch l).map alertSig = l.map alertSig := by
  induction l with
  | nil => rfl
  | cons a t ih =>
    simp only [touchAlerts, List.map_cons] at ih ⊢
    rw [touch_one_sig, ih]

lemma hasAlertFor_touchAlerts (k : String) (pw : List Int) (ch : List Nat)
    (l : List Alert) (x : String) :
    hasAlertFor (touchAlerts k pw ch l) x = hasAlertFor l x := by
  induction l with
  | nil => rfl
  | cons a t ih =>
    simp only [touchAlerts, hasAlertFor, List.map_cons, List.any_cons] at ih ⊢
    rw [touch_one_bssid, ih]

lemma countFor_touchAlerts (k : String) (pw : List Int) (ch : List Nat)
    (l : List Alert) (x : String) :
    countFor (touchAlerts k pw ch l) x = countFor l x := by
  induction l with
  | nil => rfl
  | cons a t ih =>
    simp only [touchAlerts, countFor, List.map_cons, List.filter_cons,
      touch_one_bssid] at ih ⊢
    by_cases h : (a.ap.bssid == x) = true
    · rw [if_pos h, if_pos h]
      simp only [List.length_cons]
      omega
    · rw [if_neg h, if_neg h]
      exact ih

lemma mem_touchAlerts (k : String) (pw : List Int) (ch : List Nat)
    (l : List Alert) (a : Alert) (h : a ∈ touchAlerts k pw ch l) :
    ∃ a2 ∈ l, a.ap.bssid = a2.ap.bssid ∧ a.alert_type = a2.alert_type ∧
      a.ap.essid = a2.ap.essid := by
  rcases List.mem_map.mp h with ⟨a2, hm, he⟩
  refine ⟨a2, hm, ?_⟩
  by_cases hc : (a2.ap.bssid == k) = true <;> simp [hc] at he <;> subst he <;>
    exact ⟨rfl, rfl, rfl⟩

/-! ### The evil-twin loop appends at most one entry -/

lemma etLoop_eq (entries : List (String × APRecord)) (e x : String)
    (snap : APRecord) (alerts : List Alert) (hb : snap.bssid = x) :
    etLoop entries e x snap alerts =
      if hasAlertFor alerts x then alerts
      else if entries.any (fun p => p.2.essid == e && p.1 != x) then
        alerts ++ [⟨snap, "Evil Twin Detected"⟩]
      else alerts := by
  induction entries generalizing alerts with
  | nil => simp [etLoop]
  | cons p t ih =>
    by_cases hc : (p.2.essid == e && p.1 != x) = true
    · by_cases ha : hasAlertFor alerts x = true
      · simp only [etLoop, hc, if_true, ha, ih, List.any_cons]
      · have happ : hasAlertFor (alerts ++ [⟨snap, "Evil Twin Detected"⟩]) x = true := by
          rw [hasAlertFor_append_singleton]
          simp [hb]
        simp [etLoop, hc, ha, ih, happ]
    · simp only [etLoop, hc, if_false, ih, List.any_cons, Bool.false_or,
        Bool.false_eq_true]

/-! ### The whole alert section, characterized -/

lemma alertPhase_eq (wl : List String) (ssid x : String) (snap : APRecord)
    (entries : List (String × APRecord)) (alerts : List Alert)
    (hb : snap.bssid = x) :
    alertPhase wl ssid x snap entries alerts =
      if whitelistedB wl ssid x then alerts
      else if hasAlertFor alerts x then alerts
      else if (ssid != "<Hidden>") &&
          entries.any (fun p => p.2.essid == ssid && p.1 != x) then
        alerts ++ [⟨snap, "Evil Twin Detected"⟩]
      else alerts ++ [⟨snap, "Not Whitelisted"⟩] := by
  unfold alertPhase
  by_cases hw : whitelistedB wl ssid x = true
  · simp [hw]
  · by_cases hh : ssid = "<Hidden>"
    · subst hh
      simp [hw]
    · have hbne : (ssid != "<Hidden>") = true := bne_iff_ne.mpr hh
      simp only [hw, Bool.false_eq_true, if_false, if_pos hh,
        etLoop_eq entries ssid x snap alerts hb, hbne, Bool.true_and]
      by_cases ha : hasAlertFor alerts x = true
      · simp [ha]
      · simp only [ha, Bool.false_eq_true, if_false]
        by_cases he : entries.any (fun p => p.2.essid == ssid && p.1 != x) = true
        · have happ : hasAlertFor (alerts ++ [⟨snap, "Evil Twin Detected"⟩]) x = true := by
            rw [hasAlertFor_append_singleton]
            simp [hb]
          simp [he, happ]
        · simp [he, ha]

/-! ### Registry lookup and well-formedness -/

lemma findAp_cons_pos {f : String × APRecord → Bool} (p : String × APRecord)
    (t : List (String × APRecord)) (hp : f p = true) :
    List.find? f (p :: t) = some p := by
  rw [List.find?_cons, hp]

lemma findAp_cons_neg {f : String × APRecord → Bool} (p : String × APRecord)
    (t : List (String × APRecord)) (hp : f p = false) :
    List.find? f (p :: t) = List.find? f t := by
  rw [List.find?_cons, hp]

lemma lookupAp_some_mem (m : List (String × APRecord)) (k : String) (r : APRecord)
    (h : lookupAp m k = some r) : (k, r) ∈ m := by
  unfold lookupAp at h
  cases hf : m.find? (fun p => p.1 == k) with
  | none =>
    rw [hf] at h
    exact Option.noConfusion h
  | some p =>
    rw [hf] at h
    have h1 := List.find?_some hf
    have h2 : p ∈ m := List.mem_of_find?_eq_some hf
    have h3 : p.1 = k := by simpa using h1
    have h4 : p.2 = r := by
      have h5 : some p.2 = some r := h
      injection h5
    rw [← h3, ← h4]
    exact h2

lemma lookupAp_some_bssid (m : List (String × APRecord)) (k : String)
    (r : APRecord) (hw : wfAp m) (h : lookupAp m k = some r) : r.bssid = k :=
  hw (k, r) (lookupAp_some_mem m k r h)

lemma freshRecord_bssid (b : Beacon) : (freshRecord b).bssid = b.bssid := rfl

lemma bumpRecord_bssid (r : APRecord) (b : Beacon) :
    (bumpRecord r b).bssid = r.bssid := rfl

lemma snapshotOf_bssid (m : List (String × APRecord)) (b : Beacon)
    (hw : wfAp m) : (snapshotOf m b).bssid = b.bssid := by
  unfold snapshotOf
  cases h : lookupAp m b.bssid with
  | none => rfl
  | some r => exact lookupAp_some_bssid m b.bssid r hw h

lemma lookupAp_append_of_none (m : List (String × APRecord)) (k : String)
    (v : APRecord) (h : lookupAp m k = none) :
    lookupAp (m ++ [(k, v)]) k = some v := by
  induction m with
  | nil =>
    unfold lookupAp
    rw [List.nil_append, findAp_cons_pos _ _ (by simp)]
    rfl
  | cons p t ih =>
    by_cases hp : ((p.1 == k) = true)
    · exfalso
      unfold lookupAp at h
      rw [findAp_cons_pos _ _ hp] at h
      exact Option.noConfusion h
    · have hp0 : (p.1 == k) = false := by simpa using hp
      unfold lookupAp at h ⊢
      rw [findAp_cons_neg _ _ hp0] at h
      rw [List.cons_append, findAp_cons_neg _ _ hp0]
      exact ih h

lemma lookupAp_map_update_self (m : List (String × APRecord)) (k : String)
    (v : APRecord) (r : APRecord) (h : lookupAp m k = some r) :
    lookupAp (m.map (fun p => if p.1 == k then (p.1, v) else p)) k = some v := by
  induction m with
  | nil => exact Option.noConfusion h
  | cons p t ih =>
    by_cases hp : ((p.1 == k) = true)
    · unfold lookupAp
      rw [List.map_cons, if_pos hp, findAp_cons_pos _ _ hp]
      rfl
    · have hp0 : (p.1 == k) = false := by simpa using hp
      unfold lookupAp at h ⊢
      rw [findAp_cons_neg _ _ hp0] at h
      rw [List.map_cons, if_neg hp, findAp_cons_neg _ _ hp0]
      exact ih h

lemma lookupAp_map_update_ne (m : List (String × APRecord)) (k k2 : String)
    (v : APRecord) (hne : k2 ≠ k) :
    lookupAp (m.map (fun p => if p.1 == k then (p.1, v) else p)) k2 =
      lookupAp m k2 := by
  induction m with
  | nil => rfl
  | cons p t ih =>
    by_cases hp : ((p.1 == k) = true)
    · have hp1 : p.1 = k := by simpa using hp
      have hp2 : (p.1 == k2) = false := by
        simp only [beq_eq_false_iff_ne, ne_eq, hp1]
        exact fun h2 => hne h2.symm
      unfold lookupAp
      rw [List.map_cons, if_pos hp, findAp_cons_neg _ _ hp2,
        findAp_cons_neg _ _ hp2]
      exact ih
    · by_cases hq : ((p.1 == k2) = true)
      · unfold lookupAp
        rw [List.map_cons, if_neg hp, findAp_cons_pos _ _ hq,
          findAp_cons_pos _ _ hq]
      · have hq0 : (p.1 == k2) = false := by simpa using hq
        unfold lookupAp at ih ⊢
        rw [List.map_cons, if_neg hp, findAp_cons_neg _ _ hq0,
          findAp_cons_neg _ _ hq0]
        exact ih

lemma lookupAp_upsert_self (m : List (String × APRecord)) (b : Beacon) :
    lookupAp (upsertAp m b) b.bssid = some (snapshotOf m b) := by
  unfold upsertAp snapshotOf
  cases h : lookupAp m b.bssid with
  | none => exact lookupAp_append_of_none m b.bssid (freshRecord b) h
  | some r => exact lookupAp_map_update_self m b.bssid (bumpRecord r b) r h

lemma wfAp_map_update (m : List (String × APRecord)) (k : String) (v : APRecord)
    (hw : wfAp m) (hv : v.bssid = k) :
    wfAp (m.map (fun p => if p.1 == k then (p.1, v) else p)) := by
  intro p hp
  rcases List.mem_map.mp hp with ⟨q, hq, he⟩
  by_cases hqk : (q.1 == k) = true
  · rw [if_pos hqk] at he
    subst he
    have : q.1 = k := by simpa using hqk
    simp [hv, this]
  · rw [if_neg hqk] at he
    subst he
    exact hw q hq

lemma wfAp_upsert (m : List (String × APRecord)) (b : Beacon) (hw : wfAp m) :
    wfAp (upsertAp m b) := by
  unfold upsertAp
  cases h : lookupAp m b.bssid with
  | none =>
    intro p hp
    rcases List.mem_append.mp hp with hp1 | hp1
    · exact hw p hp1
    · simp only [List.mem_singleton] at hp1
      subst hp1
      rfl
  | some r =>
    exact wfAp_map_update m b.bssid (bumpRecord r b) hw
      (lookupAp_some_bssid m b.bssid r hw h)

lemma processData_alerts (st : ScanState) (bd : String) :
    (processData st bd).alerts = st.alerts := by
  unfold processData
  split <;> rfl

lemma wfAp_processData (st : ScanState) (bd : String) (hw : wfAp st.ap_data) :
    wfAp (processData st bd).ap_data := by
  unfold processData
  cases h : lookupAp st.ap_data bd with
  | none => exact hw
  | some r =>
    exact wfAp_map_update st.ap_data bd _ hw
      (lookupAp_some_bssid st.ap_data bd r hw h)

lemma wfAp_step (wl : List String) (st : ScanState) (f : Frame)
    (hw : wfAp st.ap_data) : wfAp (step wl st f).ap_data := by
  cases f with
  | beacon b => exact wfAp_upsert st.ap_data b hw
  | dataFrame bd => exact wfAp_processData st bd hw

lemma wfAp_runFrom (wl : List String) (evs : List Frame) :
    ∀ st : ScanState, wfAp st.ap_data → wfAp (runFrom wl st evs).ap_data := by
  induction evs with
  | nil => intro st h; exact h
  | cons f t ih =>
    intro st h
    exact ih (step wl st f) (wfAp_step wl st f h)

lemma wfAp_runScan (wl : List String) (evs : List Frame) :
    wfAp (runScan wl evs).ap_data :=
  wfAp_runFrom wl evs initState (fun p hp => absurd hp (List.not_mem_nil p))

/-! ### The master characterization of one beacon step's ledger effect -/

lemma alertsAfterUpsert_sig (st : ScanState) (b : Beacon) :
    (alertsAfterUpsert st b).map alertSig = st.alerts.map alertSig := by
  unfold alertsAfterUpsert
  split
  · rfl
  · exact touchAlerts_sig _ _ _ _

lemma hasAlertFor_alertsAfterUpsert (st : ScanState) (b : Beacon) (x : String) :
    hasAlertFor (alertsAfterUpsert st b) x = hasAlertFor st.alerts x := by
  unfold alertsAfterUpsert
  split
  · rfl
  · exact hasAlertFor_touchAlerts _ _ _ _ _

lemma countFor_alertsAfterUpsert (st : ScanState) (b : Beacon) (x : String) :
    countFor (alertsAfterUpsert st b) x = countFor st.alerts x := by
  unfold alertsAfterUpsert
  split
  · rfl
  · exact countFor_touchAlerts _ _ _ _ _

lemma mem_alertsAfterUpsert (st : ScanState) (b : Beacon) (a : Alert)
    (h : a ∈ alertsAfterUpsert st b) :
    ∃ a2 ∈ st.alerts, a.ap.bssid = a2.ap.bssid ∧ a.alert_type = a2.alert_type ∧
      a.ap.essid = a2.ap.essid := by
  unfold alertsAfterUpsert at h
  split at h
  · exact ⟨a, h, rfl, rfl, rfl⟩
  · exact mem_touchAlerts _ _ _ _ _ h

lemma processBeacon_alerts (wl : List String) (st : ScanState) (b : Beacon)
    (hwf : wfAp st.ap_data) :
    (processBeacon wl st b).alerts =
      if whitelistedB wl (ssidOf b) b.bssid then alertsAfterUpsert st b
      else if hasAlertFor st.alerts b.bssid then alertsAfterUpsert st b
      else if (ssidOf b != "<Hidden>") &&
          (upsertAp st.ap_data b).any
            (fun p => p.2.essid == ssidOf b && p.1 != b.bssid) then
        alertsAfterUpsert st b ++ [⟨snapshotOf st.ap_data b, "Evil Twin Detected"⟩]
      else alertsAfterUpsert st b ++ [⟨snapshotOf st.ap_data b, "Not Whitelisted"⟩] := by
  show alertPhase wl (ssidOf b) b.bssid (snapshotOf st.ap_data b)
      (upsertAp st.ap_data b) (alertsAfterUpsert st b) = _
  rw [alertPhase_eq wl (ssidOf b) b.bssid (snapshotOf st.ap_data b)
    (upsertAp st.ap_data b) (alertsAfterUpsert st b) (snapshotOf_bssid st.ap_data b hwf),
    hasAlertFor_alertsAfterUpsert]

/-! ### Counting alerts across steps and runs -/

lemma step_countFor (wl : List String) (st : ScanState) (f : Frame) (x : String)
    (hwf : wfAp st.ap_data) :
    countFor (step wl st f).alerts x = countFor st.alerts x ∨
    (countFor st.alerts x = 0 ∧ countFor (step wl st f).alerts x = 1) := by
  cases f with
  | dataFrame bd =>
    left
    rw [show (step wl st (Frame.dataFrame bd)).alerts = st.alerts from
      processData_alerts st bd]
  | beacon b =>
    rw [show step wl st (Frame.beacon b) = processBeacon wl st b from rfl,
      processBeacon_alerts wl st b hwf]
    split
    · left; exact countFor_alertsAfterUpsert st b x
    · split
      · left; exact countFor_alertsAfterUpsert st b x
      · rename_i hwl hal
        have hal0 : hasAlertFor st.alerts b.bssid = false := by
          simpa using hal
        have hsb : (snapshotOf st.ap_data b).bssid = b.bssid :=
          snapshotOf_bssid st.ap_data b hwf
        by_cases hx : b.bssid = x
        · right
          subst hx
          have hc0 : countFor st.alerts b.bssid = 0 :=
            (countFor_eq_zero_iff _ _).mpr hal0
          constructor
          · exact hc0
          · split <;>
            · rw [countFor_append_singleton, countFor_alertsAfterUpsert, hc0]
              simp [hsb]
        · left
          split <;>
          · rw [countFor_append_singleton, countFor_alertsAfterUpsert]
            simp [hsb, hx]

lemma runFrom_cons (wl : List String) (st : ScanState) (f : Frame)
    (evs : List Frame) :
    runFrom wl st (f :: evs) = runFrom wl (step wl st f) evs := rfl

lemma runFrom_append (wl : List String) (st : ScanState)
    (evs evs2 : List Frame) :
    runFrom wl st (evs ++ evs2) = runFrom wl (runFrom wl st evs) evs2 := by
  unfold runFrom
  exact List.foldl_append _ _ _ _

lemma countFor_le_one_runFrom (wl : List String) (evs : List Frame) :
    ∀ st : ScanState, wfAp st.ap_data → (∀ x, countFor st.alerts x ≤ 1) →
    ∀ x, countFor (runFrom wl st evs).alerts x ≤ 1 := by
  induction evs with
  | nil => intro st _ h x; exact h x
  | cons f t ih =>
    intro st hwf h x
    refine ih (step wl st f) (wfAp_step wl st f hwf) ?_ x
    intro y
    rcases step_countFor wl st f y hwf with h1 | ⟨_, h2⟩
    · rw [h1]; exact h y
    · rw [h2]

lemma countFor_frozen_step (wl : List String) (st : ScanState) (f : Frame)
    (x : String) (hwf : wfAp st.ap_data)
    (h : hasAlertFor st.alerts x = true) :
    countFor (step wl st f).alerts x = countFor st.alerts x := by
  rcases step_countFor wl st f x hwf with h1 | ⟨h1, _⟩
  · exact h1
  · exact absurd ((countFor_eq_zero_iff _ _).mp h1) (by simp [h])

lemma countFor_frozen_runFrom (wl : List String) (evs : List Frame) :
    ∀ st : ScanState, ∀ x : String, wfAp st.ap_data →
    hasAlertFor st.alerts x = true →
    countFor (runFrom wl st evs).alerts x = countFor st.alerts x := by
  induction evs with
  | nil => intro st x _ _; rfl
  | cons f t ih =>
    intro st x hwf h
    have hc := countFor_frozen_step wl st f x hwf h
    have hh : hasAlertFor (step wl st f).alerts x = true := by
      rw [hasAlertFor_true_iff_countFor_ne] at h ⊢
      rw [hc]
      exact h
    rw [runFrom_cons, ih (step wl st f) x (wfAp_step wl st f hwf) hh, hc]

/-! ## Claim theorems -/

/-- C9: processing a data frame increments `data_frame_count` only when the
frame's BSSID already has a record; a data frame for an unknown BSSID creates
no record, raises nothing (the model is a total function), and leaves the
whole state — registry and alert ledger — unchanged. -/
theorem claim9_data_frames (st : ScanState) (bd : String) :
    (lookupAp st.ap_data bd = none → processData st bd = st) ∧
    (∀ r : APRecord, lookupAp st.ap_data bd = some r →
      (processData st bd).alerts = st.alerts ∧
      lookupAp (processData st bd).ap_data bd = some { r with data := r.data + 1 } ∧
      ∀ k, k ≠ bd → lookupAp (processData st bd).ap_data k = lookupAp st.ap_data k) := by
  constructor
  · intro h
    simp only [processData, h]
  · intro r h
    refine ⟨processData_alerts st bd, ?_, ?_⟩
    · simp only [processData, h]
      exact lookupAp_map_update_self st.ap_data bd _ r h
    · intro k hk
      simp only [processData, h]
      exact lookupAp_map_update_ne st.ap_data bd k _ hk

/-- Witness for C9 at a concrete state: the unknown BSSID leaves the state
unchanged, the known BSSID gets its counter bumped. -/
theorem claim9_data_frames_witness :
    processData ⟨[("dd:dd:dd:dd:dd:dd", freshRecord c8b1)], []⟩ "ff:ff:ff:ff:ff:ff" =
      ⟨[("dd:dd:dd:dd:dd:dd", freshRecord c8b1)], []⟩ ∧
    lookupAp (processData ⟨[("dd:dd:dd:dd:dd:dd", freshRecord c8b1)], []⟩
        "dd:dd:dd:dd:dd:dd").ap_data "dd:dd:dd:dd:dd:dd" =
      some { freshRecord c8b1 with data := (freshRecord c8b1).data + 1 } :=
  ⟨(claim9_data_frames ⟨[("dd:dd:dd:dd:dd:dd", freshRecord c8b1)], []⟩
      "ff:ff:ff:ff:ff:ff").1 (by decide),
   ((claim9_data_frames ⟨[("dd:dd:dd:dd:dd:dd", freshRecord c8b1)], []⟩
      "dd:dd:dd:dd:dd:dd").2 (freshRecord c8b1) (by decide)).2.1⟩

/-- C8: a repeat beacon of a recorded BSSID bumps `beacon_count` by exactly
one, appends the signal only when that exact value is absent, adds the
channel only when absent, and leaves `essid`, `max_bitrate` and all security
fields at their first-observation values.  Concretely, reporting -45 twice
leaves `signal_samples = [-45]`, and reporting -45 then -46 leaves both
samples with average -45.5. -/
theorem claim8_repeat_beacon (wl : List String) (st : ScanState) (b : Beacon)
    (r : APRecord) (h : lookupAp st.ap_data b.bssid = some r) :
    (lookupAp (processBeacon wl st b).ap_data b.bssid = some (bumpRecord r b) ∧
     (bumpRecord r b).beacons = r.beacons + 1) ∧
    ((∀ s : Int, b.signal = some s → s ∈ r.pwr → (bumpRecord r b).pwr = r.pwr) ∧
     (∀ s : Int, b.signal = some s → s ∉ r.pwr → (bumpRecord r b).pwr = r.pwr ++ [s]) ∧
     (∀ c : Nat, b.channel = some c → c ∈ r.channel →
        (bumpRecord r b).channel = r.channel) ∧
     (∀ c : Nat, b.channel = some c → c ∉ r.channel →
        (bumpRecord r b).channel = r.channel ++ [c])) ∧
    ((bumpRecord r b).essid = r.essid ∧ (bumpRecord r b).mb = r.mb ∧
     (bumpRecord r b).enc = r.enc ∧ (bumpRecord r b).cipher = r.cipher ∧
     (bumpRecord r b).auth = r.auth ∧ (bumpRecord r b).pmf = r.pmf) ∧
    ((runScan [] [Frame.beacon c8b1, Frame.beacon c8b1]).ap_data.map
        (fun p => (p.2.pwr, p.2.beacons)) = [([-45], 2)] ∧
     (runScan [] [Frame.beacon c8b1, Frame.beacon c8b2]).ap_data.map
        (fun p => p.2.pwr) = [[-45, -46]] ∧
     (runScan [] [Frame.beacon c8b1, Frame.beacon c8b2]).ap_data.map
        (fun p => avgPwr p.2.pwr) = [some ((-91 : ℚ) / 2)]) := by
  refine ⟨⟨?_, rfl⟩, ⟨?_, ?_, ?_, ?_⟩, ⟨rfl, rfl, rfl, rfl, rfl, rfl⟩, ?_, ?_, ?_⟩
  · show lookupAp (upsertAp st.ap_data b) b.bssid = _
    rw [lookupAp_upsert_self]
    simp [snapshotOf, h]
  · intro s hs hmem
    simp [bumpRecord, dedupAppend, hs, hmem]
  · intro s hs hmem
    simp [bumpRecord, dedupAppend, hs, hmem]
  · intro c hc hmem
    simp [bumpRecord, dedupAppend, hc, hmem]
  · intro c hc hmem
    simp [bumpRecord, dedupAppend, hc, hmem]
  · decide
  · decide
  · have hpw : (runScan [] [Frame.beacon c8b1, Frame.beacon c8b2]).ap_data.map
        (fun p => p.2.pwr) = [[-45, -46]] := by decide
    have hmapmap : (runScan [] [Frame.beacon c8b1, Frame.beacon c8b2]).ap_data.map
        (fun p => avgPwr p.2.pwr) =
        ((runScan [] [Frame.beacon c8b1, Frame.beacon c8b2]).ap_data.map
          (fun p => p.2.pwr)).map avgPwr := by
      rw [List.map_map]
      rfl
    rw [hmapmap, hpw]
    simp [avgPwr]

/-- Witness for C8 at a concrete repeat beacon. -/
theorem claim8_repeat_beacon_witness :
    lookupAp (processBeacon [] ⟨[("dd:dd:dd:dd:dd:dd", freshRecord c8b1)], []⟩
        c8b2).ap_data c8b2.bssid = some (bumpRecord (freshRecord c8b1) c8b2) ∧
    (bumpRecord (freshRecord c8b1) c8b2).pwr = (freshRecord c8b1).pwr ++ [-46] :=
  ⟨((claim8_repeat_beacon [] ⟨[("dd:dd:dd:dd:dd:dd", freshRecord c8b1)], []⟩
      c8b2 (freshRecord c8b1) (by decide)).1).1,
   ((claim8_repeat_beacon [] ⟨[("dd:dd:dd:dd:dd:dd", freshRecord c8b1)], []⟩
      c8b2 (freshRecord c8b1) (by decide)).2.1).2.1 (-46) (by decide) (by decide)⟩

/-- C10: on a repeat beacon whose advertised essid differs from the stored
one, the whitelist check and the evil-twin scan run against the newly
advertised essid (`ssidOf b`), while the stored record keeps its first-seen
essid; any alert emitted on that beacon snapshots the record and therefore
carries the first-seen essid, not the essid that triggered it. -/
theorem claim10_essid_change (wl : List String) (st : ScanState) (b : Beacon)
    (r : APRecord) (hwf : wfAp st.ap_data)
    (h : lookupAp st.ap_data b.bssid = some r) :
    (lookupAp (processBeacon wl st b).ap_data b.bssid = some (bumpRecord r b) ∧
     (bumpRecord r b).essid = r.essid) ∧
    (whitelistedB wl (ssidOf b) b.bssid = true →
      (processBeacon wl st b).alerts.map alertSig = st.alerts.map alertSig) ∧
    (∀ a ∈ (processBeacon wl st b).alerts,
      alertSig a ∈ st.alerts.map alertSig ∨ a.ap.essid = r.essid) ∧
    (whitelistedB wl (ssidOf b) b.bssid = false →
     ssidOf b ≠ "<Hidden>" →
     hasAlertFor st.alerts b.bssid = false →
     (upsertAp st.ap_data b).any
       (fun p => p.2.essid == ssidOf b && p.1 != b.bssid) = true →
     (processBeacon wl st b).alerts.getLast? =
       some ⟨bumpRecord r b, "Evil Twin Detected"⟩) := by
  have hsnap : snapshotOf st.ap_data b = bumpRecord r b := by
    simp [snapshotOf, h]
  refine ⟨⟨?_, rfl⟩, ?_, ?_, ?_⟩
  · show lookupAp (upsertAp st.ap_data b) b.bssid = _
    rw [lookupAp_upsert_self, hsnap]
  · intro hw
    rw [processBeacon_alerts wl st b hwf]
    simp only [hw, if_true]
    exact alertsAfterUpsert_sig st b
  · intro a ha
    rw [processBeacon_alerts wl st b hwf] at ha
    have hmemA0 : a ∈ alertsAfterUpsert st b →
        alertSig a ∈ st.alerts.map alertSig ∨ a.ap.essid = r.essid := by
      intro hm
      rcases mem_alertsAfterUpsert st b a hm with ⟨a2, hm2, hb2, ht2, _⟩
      left
      rw [show alertSig a = alertSig a2 from by simp [alertSig, hb2, ht2]]
      exact List.mem_map_of_mem _ hm2
    have hmemApp : ∀ t : String, a ∈ alertsAfterUpsert st b ++
        [⟨snapshotOf st.ap_data b, t⟩] →
        alertSig a ∈ st.alerts.map alertSig ∨ a.ap.essid = r.essid := by
      intro t hm
      rcases List.mem_append.mp hm with hm1 | hm1
      · exact hmemA0 hm1
      · simp only [List.mem_singleton] at hm1
        subst hm1
        right
        rw [hsnap]
        rfl
    split at ha
    · exact hmemA0 ha
    · split at ha
      · exact hmemA0 ha
      · split at ha
        · exact hmemApp _ ha
        · exact hmemApp _ ha
  · intro hw hh hal het
    rw [processBeacon_alerts wl st b hwf]
    rw [if_neg (by simp [hw]), if_neg (by simp [hal]),
      if_pos (by simp [het, bne_iff_ne.mpr hh])]
    rw [List.getLast?_concat, hsnap]

/-- Witness for C10: the record of `xx:…` was first seen as `"Net"`, the
repeat beacon advertises `"Net2"`; whitelisting the new pair suppresses the
alert, and without a whitelist the emitted alert is the Evil Twin snapshot
carrying the old essid. -/
theorem claim10_essid_change_witness :
    (lookupAp (processBeacon [] c10st c10b).ap_data c10b.bssid =
        some (bumpRecord (freshRecord c10first) c10b) ∧
      (bumpRecord (freshRecord c10first) c10b).essid =
        (freshRecord c10first).essid) ∧
    (processBeacon ["Net2,xx:xx:xx:xx:xx:xx"] c10st c10b).alerts.map alertSig =
      c10st.alerts.map alertSig ∧
    (processBeacon [] c10st c10b).alerts.getLast? =
      some ⟨bumpRecord (freshRecord c10first) c10b, "Evil Twin Detected"⟩ :=
  ⟨(claim10_essid_change [] c10st c10b (freshRecord c10first)
      (by decide) (by decide)).1,
   (claim10_essid_change ["Net2,xx:xx:xx:xx:xx:xx"] c10st c10b
      (freshRecord c10first) (by decide) (by decide)).2.1 (by decide),
   (claim10_essid_change [] c10st c10b (freshRecord c10first)
      (by decide) (by decide)).2.2.2 (by decide) (by decide) (by decide)
      (by decide)⟩

/-- C1: over any whole run, every BSSID receives at most one alert; when on
one evaluation both the evil-twin and the not-whitelisted conditions hold
for a BSSID with no prior ledger entry, the appended alert is Evil Twin
(priority over Not Whitelisted); and once a BSSID has a ledger entry its
alert count never changes again, whatever is processed later. -/
theorem claim1_at_most_one_alert :
    (∀ (wl : List String) (evs : List Frame) (x : String),
       countFor (runScan wl evs).alerts x ≤ 1) ∧
    (∀ (wl : List String) (evs : List Frame) (b : Beacon),
       whitelistedB wl (ssidOf b) b.bssid = false →
       ssidOf b ≠ "<Hidden>" →
       hasAlertFor (runScan wl evs).alerts b.bssid = false →
       (upsertAp (runScan wl evs).ap_data b).any
         (fun p => p.2.essid == ssidOf b && p.1 != b.bssid) = true →
       (runScan wl (evs ++ [Frame.beacon b])).alerts.map alertSig =
         (runScan wl evs).alerts.map alertSig ++
           [(b.bssid, "Evil Twin Detected")]) ∧
    (∀ (wl : List String) (evs evs2 : List Frame) (x : String),
       hasAlertFor (runScan wl evs).alerts x = true →
       countFor (runScan wl (evs ++ evs2)).alerts x =
         countFor (runScan wl evs).alerts x) := by
  refine ⟨?_, ?_, ?_⟩
  · intro wl evs x
    exact countFor_le_one_runFrom wl evs initState
      (fun p hp => absurd hp (List.not_mem_nil p))
      (fun y => Nat.le_of_eq rfl |>.trans (by simp [countFor, initState])) x
  · intro wl evs b hw hh hal het
    have hwf : wfAp (runScan wl evs).ap_data := wfAp_runScan wl evs
    have hrun : runScan wl (evs ++ [Frame.beacon b]) =
        step wl (runScan wl evs) (Frame.beacon b) := by
      unfold runScan
      rw [runFrom_append]
      rfl
    rw [hrun, show step wl (runScan wl evs) (Frame.beacon b) =
      processBeacon wl (runScan wl evs) b from rfl,
      processBeacon_alerts wl (runScan wl evs) b hwf]
    rw [if_neg (by simp [hw]), if_neg (by simp [hal]),
      if_pos (by simp [het, bne_iff_ne.mpr hh])]
    rw [List.map_append, alertsAfterUpsert_sig]
    simp [alertSig, snapshotOf_bssid (runScan wl evs).ap_data b hwf]
  · intro wl evs evs2 x hal
    unfold runScan
    rw [runFrom_append]
    exact countFor_frozen_runFrom wl evs2 (runFrom wl initState evs) x
      (wfAp_runScan wl evs) hal

/-- Witness for C1: priority and permanence at a concrete two-network run. -/
theorem claim1_at_most_one_alert_witness :
    countFor (runScan [] []).alerts "aa:aa:aa:aa:aa:aa" ≤ 1 ∧
    (runScan [] ([Frame.beacon wbA] ++ [Frame.beacon wbB])).alerts.map alertSig =
      (runScan [] [Frame.beacon wbA]).alerts.map alertSig ++
        [(wbB.bssid, "Evil Twin Detected")] ∧
    countFor (runScan [] ([Frame.beacon wbA] ++ [Frame.beacon wbB])).alerts
        wbA.bssid =
      countFor (runScan [] [Frame.beacon wbA]).alerts wbA.bssid :=
  ⟨claim1_at_most_one_alert.1 [] [] "aa:aa:aa:aa:aa:aa",
   claim1_at_most_one_alert.2.1 [] [Frame.beacon wbA] wbB
     (by decide) (by decide) (by decide) (by decide),
   claim1_at_most_one_alert.2.2 [] [Frame.beacon wbA] [Frame.beacon wbB]
     wbA.bssid (by decide)⟩

/-! ### Slice arithmetic for the RSN decoder claims -/

lemma pySlice_length (l : List Nat) (a b : Nat) :
    (pySlice l a b).length = min (b - a) (l.length - a) := by
  simp [pySlice]

lemma unpackLEH_eq_none_iff (s : List Nat) : unpackLEH s = none ↔ s.length ≠ 2 := by
  rcases s with _ | ⟨a, _ | ⟨b, _ | ⟨c, t⟩⟩⟩ <;> simp [unpackLEH]

lemma unpackLEH_some_length (s : List Nat) (w : Nat) (h : unpackLEH s = some w) :
    s.length = 2 := by
  by_contra hc
  rw [(unpackLEH_eq_none_iff s).mpr hc] at h
  exact Option.noConfusion h

lemma pySlice_getElem?_none_iff (l : List Nat) (a b i : Nat) :
    (pySlice l a b)[i]? = none ↔ min (b - a) (l.length - a) ≤ i := by
  rw [List.getElem?_eq_none_iff, pySlice_length]

/-- C6: the decoder is a total function (it returns for every byte sequence
— the `try/except` never lets an exception out), and it returns the empty
descriptor exactly when the version field is not 1 or the input runs out of
bytes at some offset step; a `some` result is always a complete descriptor
(all fields populated, `enc` committed to `"WPA2"`), never a partial one. -/
theorem claim6_decode_total_or_empty (ie : List Nat) :
    (parse_rsn ie = none ↔
      unpackLEH (pySlice ie 0 2) ≠ some 1 ∨
      (pySlice ie 8 12)[3]? = none ∨
      ∃ P, unpackLEH (pySlice ie 6 8) = some P ∧
        (pySlice ie (8 + P * 4 + 2) (8 + P * 4 + 6))[3]? = none) ∧
    (∀ info : RsnInfo, parse_rsn ie = some info → info.enc = "WPA2") := by
  cases h0 : unpackLEH (pySlice ie 0 2) with
  | none =>
    have hp : parse_rsn ie = none := by simp [parse_rsn, h0]
    refine ⟨iff_of_true hp (Or.inl (fun hc => Option.noConfusion hc)),
      fun info hinfo => ?_⟩
    rw [hp] at hinfo
    exact Option.noConfusion hinfo
  | some v =>
    by_cases hv : v = 1
    · subst hv
      cases hP : unpackLEH (pySlice ie 6 8) with
      | none =>
        have hp : parse_rsn ie = none := by simp [parse_rsn, h0, hP]
        have hlen : ie.length < 8 := by
          have h2 := (unpackLEH_eq_none_iff _).mp hP
          rw [pySlice_length] at h2
          omega
        refine ⟨iff_of_true hp (Or.inr (Or.inl ?_)), fun info hinfo => ?_⟩
        · rw [pySlice_getElem?_none_iff]
          omega
        · rw [hp] at hinfo
          exact Option.noConfusion hinfo
      | some P =>
        cases hA : unpackLEH (pySlice ie (8 + P * 4) (8 + P * 4 + 2)) with
        | none =>
          have hp : parse_rsn ie = none := by simp [parse_rsn, h0, hP, hA]
          have hlen : ie.length < 8 + P * 4 + 2 := by
            have h2 := (unpackLEH_eq_none_iff _).mp hA
            rw [pySlice_length] at h2
            omega
          refine ⟨iff_of_true hp (Or.inr (Or.inr ⟨P, rfl, ?_⟩)),
            fun info hinfo => ?_⟩
          · rw [pySlice_getElem?_none_iff]
            omega
          · rw [hp] at hinfo
            exact Option.noConfusion hinfo
        | some A =>
          cases hpc : (pySlice ie 8 12)[3]? with
          | none =>
            have hp : parse_rsn ie = none := by
              simp [parse_rsn, h0, hP, hA, hpc]
            refine ⟨iff_of_true hp (Or.inr (Or.inl rfl)), fun info hinfo => ?_⟩
            rw [hp] at hinfo
            exact Option.noConfusion hinfo
          | some pc3 =>
            cases hak : (pySlice ie (8 + P * 4 + 2) (8 + P * 4 + 6))[3]? with
            | none =>
              have hp : parse_rsn ie = none := by
                simp [parse_rsn, h0, hP, hA, hpc, hak]
              refine ⟨iff_of_true hp (Or.inr (Or.inr ⟨P, rfl, hak⟩)),
                fun info hinfo => ?_⟩
              rw [hp] at hinfo
              exact Option.noConfusion hinfo
            | some ak3 =>
              have hps : (parse_rsn ie).isSome = true := by
                simp [parse_rsn, h0, hP, hA, hpc, hak]
              have hne : ¬parse_rsn ie = none := by
                intro hc
                rw [hc] at hps
                exact Bool.noConfusion hps
              refine ⟨iff_of_false hne ?_, fun info hinfo => ?_⟩
              · rintro (hc | hc | ⟨P2, hP2, hc⟩)
                · exact hc rfl
                · exact Option.noConfusion hc
                · have hPP := Option.some.inj hP2
                  subst hPP
                  rw [hak] at hc
                  exact Option.noConfusion hc
              · simp only [parse_rsn, h0, hP, hA, hpc, hak] at hinfo
                rw [← Option.some.inj hinfo]
    · have hp : parse_rsn ie = none := by simp [parse_rsn, h0, hv]
      refine ⟨iff_of_true hp (Or.inl ?_), fun info hinfo => ?_⟩
      · exact fun hc => hv (Option.some.inj hc)
      · rw [hp] at hinfo
        exact Option.noConfusion hinfo

/-- Witness for C6: a wrong-version input and a truncated input decode to the
empty descriptor; a complete input commits `enc` to WPA2. -/
theorem claim6_decode_total_or_empty_witness :
    parse_rsn [2, 0] = none ∧
    parse_rsn (pySlice rsnSample 0 11) = none ∧
    (⟨"WPA2", "CCMP", "PSK", true, true⟩ : RsnInfo).enc = "WPA2" :=
  ⟨(claim6_decode_total_or_empty [2, 0]).1.mpr (Or.inl (by decide)),
   (claim6_decode_total_or_empty (pySlice rsnSample 0 11)).1.mpr
     (Or.inr (Or.inr ⟨1, by decide, by decide⟩)),
   (claim6_decode_total_or_empty rsnSample).2
     ⟨"WPA2", "CCMP", "PSK", true, true⟩ (by decide)⟩

/-- C5: for every byte sequence with little-endian version 1, first pairwise
suite type 4, first AKM suite type 2, and enough bytes at every step, the
decode yields enc WPA2, cipher CCMP, auth PSK, and — when at least two bytes
remain at the capabilities offset — pmf Required on bit 0x0080 (reported
alone), else Capable on bit 0x0040, else No. -/
theorem claim5_valid_rsn (ie : List Nat) (P A : Nat)
    (h1 : unpackLEH (pySlice ie 0 2) = some 1)
    (hP : unpackLEH (pySlice ie 6 8) = some P)
    (hpc : (pySlice ie 8 12)[3]? = some 4)
    (hA : unpackLEH (pySlice ie (8 + P * 4) (8 + P * 4 + 2)) = some A)
    (hak : (pySlice ie (8 + P * 4 + 2) (8 + P * 4 + 6))[3]? = some 2) :
    ∃ info : RsnInfo, parse_rsn ie = some info ∧
      info.enc = "WPA2" ∧ info.cipher = "CCMP" ∧ info.auth = "PSK" ∧
      (∀ b : Beacon, b.rsn_ie = some ie →
        securityOf b = ⟨"WPA2", "CCMP", "PSK", pmfString info⟩) ∧
      (∀ cap : Nat, 8 + P * 4 + 2 + A * 4 + 2 ≤ ie.length →
        unpackLEH (pySlice ie (8 + P * 4 + 2 + A * 4)
          (8 + P * 4 + 2 + A * 4 + 2)) = some cap →
        pmfString info = (if cap &&& 0x0080 ≠ 0 then "Required"
          else if cap &&& 0x0040 ≠ 0 then "Capable" else "No")) := by
  have hnonempty : ie.isEmpty = false := by
    have h2 := unpackLEH_some_length _ _ h1
    rw [pySlice_length] at h2
    rcases ie with _ | ⟨x, t⟩
    · simp at h2
    · rfl
  cases hcap : (if 8 + P * 4 + 2 + A * 4 + 2 ≤ ie.length then
      unpackLEH (pySlice ie (8 + P * 4 + 2 + A * 4) (8 + P * 4 + 2 + A * 4 + 2))
    else none) with
  | none =>
    have hparse : parse_rsn ie = some ⟨"WPA2", "CCMP", "PSK", false, false⟩ := by
      simp only [parse_rsn, h1, hP, hA, hpc, hak, hcap, cipher_map, akm_map]
      simp
    refine ⟨⟨"WPA2", "CCMP", "PSK", false, false⟩, hparse, rfl, rfl, rfl, ?_, ?_⟩
    · intro b hb
      simp [securityOf, hb, hnonempty, hparse]
    · intro cap hlen hcap2
      rw [if_pos hlen, hcap2] at hcap
      exact Option.noConfusion hcap
  | some c =>
    have hparse : parse_rsn ie =
        some ⟨"WPA2", "CCMP", "PSK", c &&& 0x0040 != 0, c &&& 0x0080 != 0⟩ := by
      simp only [parse_rsn, h1, hP, hA, hpc, hak, hcap, cipher_map, akm_map]
      simp
    refine ⟨⟨"WPA2", "CCMP", "PSK", c &&& 0x0040 != 0, c &&& 0x0080 != 0⟩,
      hparse, rfl, rfl, rfl, ?_, ?_⟩
    · intro b hb
      simp [securityOf, hb, hnonempty, hparse]
    · intro cap hlen hcap2
      rw [if_pos hlen, hcap2] at hcap
      have hc := Option.some.inj hcap
      subst hc
      by_cases h80 : cap &&& 0x0080 = 0 <;> by_cases h40 : cap &&& 0x0040 = 0 <;>
        simp [pmfString, h80, h40]

/-- Witness for C5 at the concrete sample element `rsnSample`
(P = 1, A = 1, capabilities 0x00C0). -/
theorem claim5_valid_rsn_witness :
    ∃ info : RsnInfo, parse_rsn rsnSample = some info ∧
      info.enc = "WPA2" ∧ info.cipher = "CCMP" ∧ info.auth = "PSK" ∧
      (∀ b : Beacon, b.rsn_ie = some rsnSample →
        securityOf b = ⟨"WPA2", "CCMP", "PSK", pmfString info⟩) ∧
      (∀ cap : Nat, 8 + 1 * 4 + 2 + 1 * 4 + 2 ≤ rsnSample.length →
        unpackLEH (pySlice rsnSample (8 + 1 * 4 + 2 + 1 * 4)
          (8 + 1 * 4 + 2 + 1 * 4 + 2)) = some cap →
        pmfString info = (if cap &&& 0x0080 ≠ 0 then "Required"
          else if cap &&& 0x0040 ≠ 0 then "Capable" else "No")) :=
  claim5_valid_rsn rsnSample 1 1 (by decide) (by decide) (by decide)
    (by decide) (by decide)

/-- C2 counterexample: a beacon carrying the RSN element `[2, 0]` (version 2,
decode fails) produces a record whose security descriptor is
WPA2/CCMP/PSK/No — not the OPN/empty default the claim asserts. -/
theorem claim2_counterexample :
    parse_rsn [2, 0] = none ∧
    (runScan [] [Frame.beacon c2beacon]).ap_data.map
      (fun p => (p.2.enc, p.2.cipher, p.2.auth, p.2.pmf)) =
      [("WPA2", "CCMP", "PSK", "No")] ∧
    ("WPA2" : String) ≠ "OPN" := by
  refine ⟨by decide, by decide, by decide⟩

/-- C2 amended: when a beacon carries a non-empty RSN element whose decode
fails, the fresh record's security descriptor is the hard-coded
enc WPA2, cipher CCMP, auth PSK with pmf No — not the OPN/empty defaults,
which apply only when no RSN element is present (or it is empty). -/
theorem claim2_amended (wl : List String) (st : ScanState) (b : Beacon)
    (ie : List Nat) (hie : b.rsn_ie = some ie) (hne : ie.isEmpty = false)
    (hfail : parse_rsn ie = none)
    (hnew : lookupAp st.ap_data b.bssid = none) :
    lookupAp (processBeacon wl st b).ap_data b.bssid = some (freshRecord b) ∧
    (freshRecord b).enc = "WPA2" ∧ (freshRecord b).cipher = "CCMP" ∧
    (freshRecord b).auth = "PSK" ∧ (freshRecord b).pmf = "No" := by
  have hsec : securityOf b = ⟨"WPA2", "CCMP", "PSK", "No"⟩ := by
    simp [securityOf, hie, hne, hfail]
  refine ⟨?_, ?_, ?_, ?_, ?_⟩
  · show lookupAp (upsertAp st.ap_data b) b.bssid = _
    rw [lookupAp_upsert_self]
    simp [snapshotOf, hnew]
  all_goals simp [freshRecord, hsec]

/-- Witness for C2 amended, at the concrete failing beacon. -/
theorem claim2_amended_witness :
    lookupAp (processBeacon [] initState c2beacon).ap_data c2beacon.bssid =
      some (freshRecord c2beacon) ∧
    (freshRecord c2beacon).enc = "WPA2" ∧
    (freshRecord c2beacon).cipher = "CCMP" ∧
    (freshRecord c2beacon).auth = "PSK" ∧
    (freshRecord c2beacon).pmf = "No" :=
  claim2_amended [] initState c2beacon [2, 0] (by decide) (by decide)
    (by decide) (by decide)

/-- C7 code evaluation: after the first beacon the recorded alert holds
`pwr = [-45]`; the second beacon for the same BSSID (signal -46) mutates the
already-recorded alert's `pwr` to `[-45, -46]` through the shared list
object of the shallow `dict.copy`, while the rebound fields
(`beacons`, `alert_type`) stay frozen at their snapshot values. -/
theorem claim7_alert_not_immutable :
    (runScan [] [Frame.beacon c7b1]).alerts.map (fun a => a.ap.pwr) =
      [[-45]] ∧
    (runScan [] [Frame.beacon c7b1, Frame.beacon c7b2]).alerts.map
      (fun a => a.ap.pwr) = [[-45, -46]] ∧
    (runScan [] [Frame.beacon c7b1, Frame.beacon c7b2]).alerts.map
      (fun a => (a.ap.beacons, a.alert_type)) = [(1, "Not Whitelisted")] := by
  refine ⟨by decide, by decide, by decide⟩

/-- C3 counterexample: with an empty whitelist, processing [A, B] (same
essid "Net", distinct BSSIDs) yields TWO alerts — a Not Whitelisted alert
for A and the Evil Twin alert for B — so A does not receive zero alerts and
the ledger length is not one. -/
theorem claim3_counterexample :
    (runScan [] [Frame.beacon wbA, Frame.beacon wbB]).alerts.map alertSig =
      [("aa:aa:aa:aa:aa:aa", "Not Whitelisted"),
       ("bb:bb:bb:bb:bb:bb", "Evil Twin Detected")] ∧
    (runScan [] [Frame.beacon wbA, Frame.beacon wbB]).alerts.length ≠ 1 ∧
    countFor (runScan [] [Frame.beacon wbA, Frame.beacon wbB]).alerts
      "aa:aa:aa:aa:aa:aa" ≠ 0 := by
  refine ⟨by decide, by decide, by decide⟩

/-- C3 amended: processing [A, B] (same non-hidden essid "Net", distinct
BSSIDs, neither whitelisted) from the empty state produces exactly two
alerts: Not Whitelisted for A (emitted on its first beacon) and Evil Twin
for B; B receives exactly one alert and it is Evil Twin. -/
theorem claim3_amended (wl : List String) (x y : Beacon)
    (hx : x.raw_ssid = "Net") (hy : y.raw_ssid = "Net")
    (hne : x.bssid ≠ y.bssid)
    (hwx : whitelistedB wl "Net" x.bssid = false)
    (hwy : whitelistedB wl "Net" y.bssid = false) :
    (runScan wl [Frame.beacon x, Frame.beacon y]).alerts.map alertSig =
      [(x.bssid, "Not Whitelisted"), (y.bssid, "Evil Twin Detected")] ∧
    countFor (runScan wl [Frame.beacon x, Frame.beacon y]).alerts y.bssid = 1 := by
  have hsx : ssidOf x = "Net" := by
    unfold ssidOf
    rw [hx]
    decide
  have hsy : ssidOf y = "Net" := by
    unfold ssidOf
    rw [hy]
    decide
  have hwf0 : wfAp initState.ap_data := fun p hp => absurd hp (List.not_mem_nil p)
  have h1ap : (processBeacon wl initState x).ap_data = [(x.bssid, freshRecord x)] :=
    rfl
  have h1al : (processBeacon wl initState x).alerts =
      [⟨freshRecord x, "Not Whitelisted"⟩] := by
    show alertPhase wl (ssidOf x) x.bssid (snapshotOf initState.ap_data x)
      (upsertAp initState.ap_data x) (alertsAfterUpsert initState x) = _
    rw [alertPhase_eq wl (ssidOf x) x.bssid _ _ _ rfl]
    rw [show alertsAfterUpsert initState x = [] from rfl,
      show upsertAp initState.ap_data x = [(x.bssid, freshRecord x)] from rfl,
      show snapshotOf initState.ap_data x = freshRecord x from rfl, hsx, hwx]
    simp [hasAlertFor, freshRecord, hsx, bne_self_eq_false]
  have hwf1 : wfAp (processBeacon wl initState x).ap_data :=
    wfAp_step wl initState (Frame.beacon x) hwf0
  have hbeq : (x.bssid == y.bssid) = false := beq_eq_false_iff_ne.mpr hne
  have hlook : lookupAp [(x.bssid, freshRecord x)] y.bssid = none := by
    unfold lookupAp
    rw [findAp_cons_neg _ _ hbeq]
    rfl
  have hsnap2 : snapshotOf (processBeacon wl initState x).ap_data y =
      freshRecord y := by
    simp [snapshotOf, h1ap, hlook]
  have hAU2 : alertsAfterUpsert (processBeacon wl initState x) y =
      (processBeacon wl initState x).alerts := by
    simp [alertsAfterUpsert, h1ap, hlook]
  have hup2 : upsertAp (processBeacon wl initState x).ap_data y =
      [(x.bssid, freshRecord x), (y.bssid, freshRecord y)] := by
    simp [upsertAp, h1ap, hlook]
  have hal2 : hasAlertFor (processBeacon wl initState x).alerts y.bssid = false := by
    rw [h1al]
    simp [hasAlertFor, freshRecord, hbeq]
  have het2 : (upsertAp (processBeacon wl initState x).ap_data y).any
      (fun p => p.2.essid == ssidOf y && p.1 != y.bssid) = true := by
    rw [hup2]
    have hone : ((freshRecord x).essid == ssidOf y && (x.bssid != y.bssid)) =
        true := by
      rw [show (freshRecord x).essid = ssidOf x from rfl, hsx, hsy]
      simp [bne_iff_ne, hne]
    simp only [List.any_cons, hone, Bool.true_or]
  have h2al : (runScan wl [Frame.beacon x, Frame.beacon y]).alerts =
      (processBeacon wl initState x).alerts ++
        [⟨freshRecord y, "Evil Twin Detected"⟩] := by
    show (processBeacon wl (processBeacon wl initState x) y).alerts = _
    rw [processBeacon_alerts wl _ y hwf1]
    rw [if_neg (by simp [hsy, hwy]), if_neg (by simp [hal2]),
      if_pos (by
        rw [Bool.and_eq_true]
        exact ⟨by rw [hsy]; decide, het2⟩)]
    rw [hAU2, hsnap2]
  constructor
  · rw [h2al, List.map_append, h1al]
    simp [alertSig, freshRecord]
  · rw [h2al, countFor_append_singleton, h1al]
    simp [countFor, freshRecord, hbeq]

/-- Witness for C3 amended at the concrete pair `wbA`, `wbB`. -/
theorem claim3_amended_witness :
    (runScan [] [Frame.beacon wbA, Frame.beacon wbB]).alerts.map alertSig =
      [(wbA.bssid, "Not Whitelisted"), (wbB.bssid, "Evil Twin Detected")] ∧
    countFor (runScan [] [Frame.beacon wbA, Frame.beacon wbB]).alerts
      wbB.bssid = 1 :=
  claim3_amended [] wbA wbB rfl rfl (by decide) (by decide) (by decide)

/-- C4 counterexample: with `("Net", A)` whitelisted, the observation order
[B, A] gives B a Not Whitelisted alert, not an Evil Twin one — so the claim
that B's alert is EvilTwin for every observation order fails. -/
theorem claim4_counterexample :
    (runScan wl4 [Frame.beacon wbB, Frame.beacon wbA]).alerts.map alertSig =
      [("bb:bb:bb:bb:bb:bb", "Not Whitelisted")] ∧
    (∀ a ∈ (runScan wl4 [Frame.beacon wbB, Frame.beacon wbA]).alerts,
      a.alert_type ≠ "Evil Twin Detected") := by
  refine ⟨by decide, by decide⟩

/-- The whitelisted beacon of `wl4` never changes the set of alert
signatures: its step keeps the ledger (up to the aliased list mutation). -/
lemma step_beacon_whitelisted_alerts (wl : List String) (st : ScanState)
    (b : Beacon) (hwf : wfAp st.ap_data)
    (hw : whitelistedB wl (ssidOf b) b.bssid = true) :
    (processBeacon wl st b).alerts = alertsAfterUpsert st b := by
  rw [processBeacon_alerts wl st b hwf, if_pos hw]

/-- Any alert present after a step either matches (by BSSID) an alert that
was already in the ledger, or is for the BSSID of the beacon just
processed. -/
lemma step_alerts_bssid_mem (wl : List String) (st : ScanState) (f : Frame)
    (a : Alert) (hwf : wfAp st.ap_data) (ha : a ∈ (step wl st f).alerts) :
    (∃ a2 ∈ st.alerts, a.ap.bssid = a2.ap.bssid) ∨
    (∃ b : Beacon, f = Frame.beacon b ∧ a.ap.bssid = b.bssid) := by
  cases f with
  | dataFrame bd =>
    rw [show (step wl st (Frame.dataFrame bd)).alerts = st.alerts from
      processData_alerts st bd] at ha
    exact Or.inl ⟨a, ha, rfl⟩
  | beacon b =>
    rw [show step wl st (Frame.beacon b) = processBeacon wl st b from rfl,
      processBeacon_alerts wl st b hwf] at ha
    have hA0 : a ∈ alertsAfterUpsert st b →
        (∃ a2 ∈ st.alerts, a.ap.bssid = a2.ap.bssid) ∨
        (∃ b2 : Beacon, Frame.beacon b = Frame.beacon b2 ∧
          a.ap.bssid = b2.bssid) := by
      intro hm
      rcases mem_alertsAfterUpsert st b a hm with ⟨a2, h2, hb2, _, _⟩
      exact Or.inl ⟨a2, h2, hb2⟩
    have happ : ∀ t : String,
        a ∈ alertsAfterUpsert st b ++ [⟨snapshotOf st.ap_data b, t⟩] →
        (∃ a2 ∈ st.alerts, a.ap.bssid = a2.ap.bssid) ∨
        (∃ b2 : Beacon, Frame.beacon b = Frame.beacon b2 ∧
          a.ap.bssid = b2.bssid) := by
      intro t hm
      rcases List.mem_append.mp hm with hm1 | hm1
      · exact hA0 hm1
      · simp only [List.mem_singleton] at hm1
        subst hm1
        exact Or.inr ⟨b, rfl, snapshotOf_bssid st.ap_data b hwf⟩
    split at ha
    · exact hA0 ha
    · split at ha
      · exact hA0 ha
      · split at ha
        · exact happ _ ha
        · exact happ _ ha

/-- In the `wl4` scenario, any run consisting only of beacons from `wbA`
(whitelisted) and `wbB` keeps every ledger entry on `wbB`'s BSSID. -/
lemma c4_only_B_aux (evs : List Frame) :
    ∀ st : ScanState, wfAp st.ap_data →
    (∀ a ∈ st.alerts, a.ap.bssid = "bb:bb:bb:bb:bb:bb") →
    (∀ f ∈ evs, f = Frame.beacon wbA ∨ f = Frame.beacon wbB) →
    ∀ a ∈ (runFrom wl4 st evs).alerts, a.ap.bssid = "bb:bb:bb:bb:bb:bb" := by
  induction evs with
  | nil => intro st _ honly _ a ha; exact honly a ha
  | cons f t ih =>
    intro st hwf honly hall
    have hstep : ∀ a2 ∈ (step wl4 st f).alerts,
        a2.ap.bssid = "bb:bb:bb:bb:bb:bb" := by
      intro a2 ha2
      rcases hall f (List.mem_cons_self f t) with hf | hf
      · subst hf
        rw [show step wl4 st (Frame.beacon wbA) = processBeacon wl4 st wbA
            from rfl,
          step_beacon_whitelisted_alerts wl4 st wbA hwf (by decide)] at ha2
        rcases mem_alertsAfterUpsert st wbA a2 ha2 with ⟨a3, h3, hb3, _, _⟩
        rw [hb3]
        exact honly a3 h3
      · subst hf
        rcases step_alerts_bssid_mem wl4 st (Frame.beacon wbB) a2 hwf ha2 with
          ⟨a3, h3, hb3⟩ | ⟨b2, hb2, hbb⟩
        · rw [hb3]
          exact honly a3 h3
        · injection hb2 with hb2e
          rw [hbb, ← hb2e]
          rfl
    exact ih (step wl4 st f) (wfAp_step wl4 st f hwf) hstep
      (fun f2 h2 => hall f2 (List.mem_cons_of_mem f h2))

/-- Whitelist membership is exactly an exact two-field string match against
some loaded entry. -/
lemma whitelistedB_iff (wl : List String) (ssid bssid : String) :
    whitelistedB wl ssid bssid = true ↔
      ∃ e ∈ wl, pySplitComma e = [ssid, bssid] := by
  unfold whitelistedB
  rw [List.any_eq_true]
  constructor
  · rintro ⟨e, he, hm⟩
    refine ⟨e, he, ?_⟩
    rcases hsp : pySplitComma e with _ | ⟨s1, _ | ⟨s2, _ | ⟨s3, r3⟩⟩⟩ <;>
      rw [hsp] at hm
    · exact Bool.noConfusion hm
    · exact Bool.noConfusion hm
    · simp only [Bool.and_eq_true, beq_iff_eq] at hm
      rw [hm.1, hm.2]
    · exact Bool.noConfusion hm
  · rintro ⟨e, he, hsp⟩
    refine ⟨e, he, ?_⟩
    rw [hsp]
    simp

/-- C4 amended: with `("Net", A)` whitelisted and B sharing the essid, in
every observation order of beacons from A and B only B ever alerts and A
never alerts; B's alert is Evil Twin when B is observed after A
(order [A, B]) but Not Whitelisted when B comes first (order [B, A]); and
whitelist membership holds exactly on an exact string match of both essid
and bssid against a loaded entry. -/
theorem claim4_whitelist_only_B :
    (∀ evs : List Frame,
       (∀ f ∈ evs, f = Frame.beacon wbA ∨ f = Frame.beacon wbB) →
       (∀ a ∈ (runScan wl4 evs).alerts, a.ap.bssid = wbB.bssid) ∧
       (∀ a ∈ (runScan wl4 evs).alerts, a.ap.bssid ≠ wbA.bssid)) ∧
    (runScan wl4 [Frame.beacon wbA, Frame.beacon wbB]).alerts.map alertSig =
      [(wbB.bssid, "Evil Twin Detected")] ∧
    (runScan wl4 [Frame.beacon wbB, Frame.beacon wbA]).alerts.map alertSig =
      [(wbB.bssid, "Not Whitelisted")] ∧
    (∀ (wl : List String) (ssid bssid : String),
       whitelistedB wl ssid bssid = true ↔
         ∃ e ∈ wl, pySplitComma e = [ssid, bssid]) := by
  refine ⟨?_, by decide, by decide, whitelistedB_iff⟩
  intro evs hall
  have honly := c4_only_B_aux evs initState
    (fun p hp => absurd hp (List.not_mem_nil p))
    (fun a ha => absurd ha (List.not_mem_nil a)) hall
  refine ⟨fun a ha => honly a ha, fun a ha => ?_⟩
  rw [honly a ha]
  decide

/-- Witness for C4 amended at the order [A, B] plus a concrete membership
test. -/
theorem claim4_whitelist_only_B_witness :
    (∀ a ∈ (runScan wl4 [Frame.beacon wbA, Frame.beacon wbB]).alerts,
       a.ap.bssid = wbB.bssid) ∧
    (whitelistedB wl4 "Net" "aa:aa:aa:aa:aa:aa" = true ↔
       ∃ e ∈ wl4, pySplitComma e = ["Net", "aa:aa:aa:aa:aa:aa"]) :=
  ⟨(claim4_whitelist_only_B.1 [Frame.beacon wbA, Frame.beacon wbB]
      (by decide)).1,
   claim4_whitelist_only_B.2.2.2 wl4 "Net" "aa:aa:aa:aa:aa:aa"⟩

end RogueScan
